import Mathlib

/-!
Verification development for `obs_stuff/takemycutplease.py`: a saga that cuts
an OBS program to an overlay scene, plays a clip, and cuts back, restoring
all mutated state.  The Python source is shallowly embedded below: every
remote request the program can issue becomes a constructor of `Req`, the
outcome of each fallible remote call is drawn from an environment record,
and each phase of the program becomes a pure Lean function producing the
list of requests it issues together with its result.
-/

namespace ObsCut

/-- Every OBS WebSocket request the script can issue, with its payload and
the call-site request-id string (the value the Python code passes as
`req_id`; the wire id appends a monotone counter, modelled separately by
`mk_request_id`). -/
inductive Req where
  | getCurrentProgramScene (reqId : String)
  | getInputSettings (inputName reqId : String)
  | getSceneTransitionOverride (sceneName reqId : String)
  | setSceneTransitionOverride (sceneName : String) (transitionName : Option String)
      (transitionDuration : Option Int) (reqId : String)
  | getCurrentSceneTransition (reqId : String)
  | getCurrentSceneTransitionDuration (reqId : String)
  | setCurrentSceneTransition (transitionName reqId : String)
  | setCurrentSceneTransitionDuration (transitionDuration : Int) (reqId : String)
  | setInputSettings (inputName cloneTarget reqId : String)
  | getSceneItemId (sceneName sourceName reqId : String)
  | setSceneItemEnabled (sceneName : String) (sceneItemId : Int) (enabled : Bool) (reqId : String)
  | triggerMediaInputAction (inputName mediaAction reqId : String)
  | setCurrentProgramScene (sceneName reqId : String)
  | getMediaInputStatus (inputName reqId : String)
deriving DecidableEq, Repr

/-- Requests that mutate OBS state (every `Set...` and `Trigger...` call);
the `Get...` queries are reads. -/
def isMutating : Req → Bool
  | .setSceneTransitionOverride _ _ _ _ => true
  | .setCurrentSceneTransition _ _ => true
  | .setCurrentSceneTransitionDuration _ _ => true
  | .setInputSettings _ _ _ => true
  | .setSceneItemEnabled _ _ _ _ => true
  | .triggerMediaInputAction _ _ _ => true
  | .setCurrentProgramScene _ _ => true
  | _ => false

/-- Call-site request id carried by a request. -/
def reqIdOf : Req → String
  | .getCurrentProgramScene r => r
  | .getInputSettings _ r => r
  | .getSceneTransitionOverride _ r => r
  | .setSceneTransitionOverride _ _ _ r => r
  | .getCurrentSceneTransition r => r
  | .getCurrentSceneTransitionDuration r => r
  | .setCurrentSceneTransition _ r => r
  | .setCurrentSceneTransitionDuration _ r => r
  | .setInputSettings _ _ r => r
  | .getSceneItemId _ _ r => r
  | .setSceneItemEnabled _ _ _ r => r
  | .triggerMediaInputAction _ _ r => r
  | .setCurrentProgramScene _ r => r
  | .getMediaInputStatus _ r => r

/-! ## Playback completion watcher (`hold_until_clip_done_or_fallback`) -/

/-- One successful `GetMediaInputStatus` response: the optional
`mediaState`, `mediaCursor` and `mediaDuration` fields. -/
structure MediaObs where
  state : Option String
  cursor : Option Int
  dur : Option Int
deriving DecidableEq, Repr

/-- One iteration of the watcher's polling loop as observed from outside:
the elapsed time `loop.time() - t0` at the top of the iteration, the result
of the status query (`none` means the query raised), and whether a hide
request issued on this tick would succeed (the code swallows the failure
either way). -/
structure Tick where
  elapsed : ℤ
  obs : Option MediaObs
  hideOk : Bool
deriving DecidableEq, Repr

/-- The `active_states` set of the source (modern and legacy vocabularies). -/
def active_states : List String :=
  ["OBS_WEBSOCKET_MEDIA_INPUT_STATE_OPENING",
   "OBS_WEBSOCKET_MEDIA_INPUT_STATE_BUFFERING",
   "OBS_WEBSOCKET_MEDIA_INPUT_STATE_PLAYING",
   "OBS_MEDIA_STATE_OPENING",
   "OBS_MEDIA_STATE_BUFFERING",
   "OBS_MEDIA_STATE_PLAYING"]

/-- Instants and durations are modelled in integer milliseconds.  The
source computes with float seconds; every time computation it performs
(`x / 1000.0`, `+ 0.15`, `max`, subtraction, comparisons) is carried to
milliseconds by the order-preserving scale `s ↦ 1000 * s`, under which
`pad_s = 0.15` becomes 150. -/
def pad_ms : ℤ := 150

/-- `fallback_s = fallback_duration_ms / 1000.0 + pad_s`, in milliseconds:
the division by 1000 and the scale cancel. -/
def fallback_floor_ms (fallback_duration_ms : Int) : ℤ :=
  (fallback_duration_ms : ℤ) + pad_ms

/-- `state` field of a possibly-failed status query; a failed query is
treated as all fields unknown (the `except` branch of the source). -/
def obsState : Option MediaObs → Option String
  | none => none
  | some o => o.state

/-- `cursor` field of a possibly-failed status query. -/
def obsCursor : Option MediaObs → Option Int
  | none => none
  | some o => o.cursor

/-- `dur` field of a possibly-failed status query. -/
def obsDur : Option MediaObs → Option Int
  | none => none
  | some o => o.dur

/-- A failed status query is replaced, inside the loop's `except` branch,
by a response whose three fields are all unknown. -/
def normObs : Option MediaObs → MediaObs
  | none => ⟨none, none, none⟩
  | some o => o

/-- `state in active_states` (Python `None` is never in the set). -/
def isActiveState : Option String → Bool
  | none => false
  | some s => active_states.contains s

/-- `dur is not None and dur > 0 and cursor is not None and cursor >= (dur - 50)`. -/
def cursorNearEnd : Option Int → Option Int → Bool
  | some c, some d => decide (0 < d) && decide (d - 50 ≤ c)
  | _, _ => false

/-- The three return checks at the bottom of the loop body, in source
order: `ended_by_obs and elapsed >= fallback_s`, then `elapsed >=
fallback_s`, then `elapsed >= max_s`. -/
def tickReturns (fb mx : ℤ) (ended : Bool) (elapsed : ℤ) : Bool :=
  if ended && decide (fb ≤ elapsed) then true
  else if fb ≤ elapsed then true
  else if mx ≤ elapsed then true
  else false

/-- Mutable state of the watcher loop: the `hidden` and `seen_active`
flags (`last_state` only drives logging and is omitted). -/
structure WatchState where
  hidden : Bool
  seen_active : Bool
deriving DecidableEq, Repr

/-- Result of a watcher run over a finite list of observed ticks:
the tick index at which the loop returned (`none` when the supplied ticks
ran out before the return condition fired), the tick indices at which a
hide request was issued, and the requests issued in order. -/
structure WatchResult where
  retIdx : Option Nat
  hides : List Nat
  trace : List Req
deriving DecidableEq, Repr

/-- One-per-iteration body of `hold_until_clip_done_or_fallback`: the hide
check runs first (the hide failure is swallowed and `hidden` is set either
way), then the status query, then the `seen_active` update, the
`ended_by_obs` computation and the three return checks. -/
def watchGo (scene input : String) (pid : Int) (hd fb mx : ℤ) :
    Nat → WatchState → List Tick → WatchResult
  | _, _, [] => ⟨none, [], []⟩
  | i, st, t :: ts =>
    let doHide := !st.hidden && decide (hd ≤ t.elapsed)
    let hideTr : List Req :=
      if doHide then [Req.setSceneItemEnabled scene pid false "hidePrev"] else []
    let hideIdx : List Nat := if doHide then [i] else []
    let hidden' := st.hidden || doHide
    let s := obsState t.obs
    let seen' := st.seen_active || isActiveState s
    let ended := (seen' && s.isSome && !isActiveState s)
      || cursorNearEnd (obsCursor t.obs) (obsDur t.obs)
    let qTr : List Req := [Req.getMediaInputStatus input "getMedia"]
    if tickReturns fb mx ended t.elapsed then
      ⟨some i, hideIdx, hideTr ++ qTr⟩
    else
      let r := watchGo scene input pid hd fb mx (i + 1) ⟨hidden', seen'⟩ ts
      ⟨r.retIdx, hideIdx ++ r.hides, hideTr ++ qTr ++ r.trace⟩

/-- `hold_until_clip_done_or_fallback`: runs the polling loop from a fresh
state with the fallback floor `fallback_duration_ms + 150` ms and the
ceiling `max_s = max fallback_s end_timeout_s`, over the observed ticks;
`hide_delay_s` and `end_timeout_s` keep their source names but are in
milliseconds here. -/
def hold_until_clip_done_or_fallback (itstinks_scene clip_input : String)
    (prev_scene_item_id : Int) (hide_delay_s : ℤ) (fallback_duration_ms : Int)
    (end_timeout_s : ℤ) (ticks : List Tick) : WatchResult :=
  watchGo itstinks_scene clip_input prev_scene_item_id hide_delay_s
    (fallback_floor_ms fallback_duration_ms)
    (max (fallback_floor_ms fallback_duration_ms) end_timeout_s)
    0 ⟨false, false⟩ ticks

/-- Index of the first tick whose elapsed time has reached the fallback
floor (the specification's predicted return tick). -/
def firstFloorIdx (fb : ℤ) : List Tick → Option Nat
  | [] => none
  | t :: ts => if fb ≤ t.elapsed then some 0 else (firstFloorIdx fb ts).map (· + 1)

/-! ## Request/response correlator (`ObsClient.request`) -/

/-- The `requestStatus` object of an op-7 response: `result`, `code` and
`comment` are read with `.get`, so each may be absent (a missing
`requestStatus` object behaves as all three absent). -/
structure RequestStatus where
  result : Option Bool
  code : Option Int
  comment : Option String
deriving DecidableEq, Repr

/-- The `d` payload of an incoming message; `responseData` stands for the
rest of the payload, which `request` returns untouched. -/
structure DPayload where
  requestId : Option String
  requestStatus : RequestStatus
  responseData : Option String
deriving DecidableEq, Repr

/-- An incoming websocket message: its `op` code and its `d` payload. -/
structure RMsg where
  op : Option Int
  d : DPayload
deriving DecidableEq, Repr

/-- Result of the receive loop of `ObsClient.request`: the returned `d`
payload, the raised `RuntimeError` (carrying the request type, the remote
status code and the remote comment, defaulted to the empty string), or
`pending` when the supplied message list is exhausted (the source would
keep blocking on the socket). -/
inductive ReqResult where
  | ok (d : DPayload)
  | err (request_type : String) (code : Option Int) (comment : String)
  | pending
deriving DecidableEq, Repr

/-- The receive loop of `ObsClient.request`: skip any message whose `op`
is not 7 or whose `requestId` differs from the correlation id; on the
first match, raise unless `status.get("result") is True`, else return the
payload. -/
def recv_loop (request_type rid : String) : List RMsg → ReqResult
  | [] => .pending
  | m :: ms =>
    if m.op ≠ some 7 then recv_loop request_type rid ms
    else if m.d.requestId ≠ some rid then recv_loop request_type rid ms
    else if m.d.requestStatus.result ≠ some true then
      .err request_type m.d.requestStatus.code (m.d.requestStatus.comment.getD "")
    else .ok m.d

/-- The first message that the receive loop would accept: op 7 and a
matching correlation id. -/
def firstMatch (rid : String) : List RMsg → Option DPayload
  | [] => none
  | m :: ms =>
    if m.op = some 7 ∧ m.d.requestId = some rid then some m.d else firstMatch rid ms

/-- Decimal digits of a natural number, most significant first (empty for
zero); the embedding of Python's decimal formatting of the counter. -/
def natDigits : Nat → List Nat
  | 0 => []
  | n + 1 =>
    natDigits ((n + 1) / 10) ++ [(n + 1) % 10]
decreasing_by exact Nat.div_lt_self (Nat.succ_pos n) (by omega)

/-- Character for one decimal digit. -/
def digitChar (d : Nat) : Char := Char.ofNat (48 + d)

/-- Decimal string of a natural number, as Python's `f"{seq}"` writes it. -/
def natToDecString (n : Nat) : String := ⟨(natDigits n).map digitChar⟩

/-- Value of a digit list, most significant first. -/
def decVal (ds : List Nat) : Nat := ds.foldl (fun a d => 10 * a + d) 0

/-- Numeric value of a digit character. -/
def charVal (c : Char) : Nat := c.toNat - 48

/-- The counter encoded in a generated id: the maximal run of trailing
digit characters, read back as a decimal number. -/
def decodeSeq (id : String) : Nat :=
  decVal (((id.data.reverse.takeWhile fun c => c.isDigit).reverse).map charVal)

/-- `ObsClient._mk_request_id`: bump the counter, replace a falsy or
default ("1") prefix by "req", and append "-" and the counter.  Returns
the generated id together with the new counter value. -/
def mk_request_id (req_seq : Nat) (pfx : String) : String × Nat :=
  let s := req_seq + 1
  let p := if pfx ≠ "" ∧ pfx ≠ "1" then pfx else "req"
  (p ++ "-" ++ natToDecString s, s)

/-- The ids generated by a sequence of `request` calls on one client,
given the prefixes passed and the current counter value. -/
def gen_ids : Nat → List String → List String
  | _, [] => []
  | seq, p :: ps =>
    let r := mk_request_id seq p
    r.1 :: gen_ids r.2 ps

/-! ## Authentication token (`compute_auth`)

Bytes are naturals below 256; 32-bit words are naturals reduced modulo
`2 ^ 32` wherever overflow matters, exactly as the hash mixes them. -/

/-- UTF-8 encoding of one Unicode code point (1 to 4 bytes). -/
def utf8EncodeNat (c : Nat) : List Nat :=
  if c < 128 then [c]
  else if c < 2048 then
    [192 ||| (c >>> 6), 128 ||| (c &&& 63)]
  else if c < 65536 then
    [224 ||| (c >>> 12), 128 ||| ((c >>> 6) &&& 63), 128 ||| (c &&& 63)]
  else
    [240 ||| (c >>> 18), 128 ||| ((c >>> 12) &&& 63),
     128 ||| ((c >>> 6) &&& 63), 128 ||| (c &&& 63)]

/-- `s.encode("utf-8")`: the UTF-8 bytes of a string. -/
def strUtf8 (s : String) : List Nat :=
  s.data.flatMap fun ch => utf8EncodeNat ch.toNat

/-- Addition of 32-bit words. -/
def add32 (a b : Nat) : Nat := (a + b) % (2 ^ 32)

/-- Right rotation of a 32-bit word by `k` (for `0 < k < 32`). -/
def rotr32 (k x : Nat) : Nat := (x >>> k) ||| ((x % 2 ^ k) <<< (32 - k))

/-- SHA-256 `Ch(x, y, z)`; complement taken inside 32 bits. -/
def shaCh (x y z : Nat) : Nat := (x &&& y) ^^^ ((x ^^^ (2 ^ 32 - 1)) &&& z)

/-- SHA-256 `Maj(x, y, z)`. -/
def shaMaj (x y z : Nat) : Nat := (x &&& y) ^^^ (x &&& z) ^^^ (y &&& z)

/-- SHA-256 `Σ0`. -/
def bsig0 (x : Nat) : Nat := rotr32 2 x ^^^ rotr32 13 x ^^^ rotr32 22 x

/-- SHA-256 `Σ1`. -/
def bsig1 (x : Nat) : Nat := rotr32 6 x ^^^ rotr32 11 x ^^^ rotr32 25 x

/-- SHA-256 `σ0`. -/
def ssig0 (x : Nat) : Nat := rotr32 7 x ^^^ rotr32 18 x ^^^ (x >>> 3)

/-- SHA-256 `σ1`. -/
def ssig1 (x : Nat) : Nat := rotr32 17 x ^^^ rotr32 19 x ^^^ (x >>> 10)

/-- The 64 SHA-256 round constants. -/
def shaK : List Nat :=
  [1116352408, 1899447441, 3049323471, 3921009573, 961987163,
   1508970993, 2453635748, 2870763221, 3624381080, 310598401,
   607225278, 1426881987, 1925078388, 2162078206, 2614888103,
   3248222580, 3835390401, 4022224774, 264347078, 604807628,
   770255983, 1249150122, 1555081692, 1996064986, 2554220882,
   2821834349, 2952996808, 3210313671, 3336571891, 3584528711,
   113926993, 338241895, 666307205, 773529912, 1294757372,
   1396182291, 1695183700, 1986661051, 2177026350, 2456956037,
   2730485921, 2820302411, 3259730800, 3345764771, 3516065817,
   3600352804, 4094571909, 275423344, 430227734, 506948616,
   659060556, 883997877, 958139571, 1322822218, 1537002063,
   1747873779, 1955562222, 2024104815, 2227730452, 2361852424,
   2428436474, 2756734187, 3204031479, 3329325298]

/-- The eight SHA-256 working registers / hash words. -/
structure Hash8 where
  a : Nat
  b : Nat
  c : Nat
  d : Nat
  e : Nat
  f : Nat
  g : Nat
  h : Nat
deriving DecidableEq, Repr

/-- SHA-256 initial hash value. -/
def shaH0 : Hash8 :=
  ⟨1779033703, 3144134277, 1013904242, 2773480762,
   1359893119, 2600822924, 528734635, 1541459225⟩

/-- Big-endian 32-bit words of a byte list (length a multiple of 4). -/
def toWordsBE (bytes : List Nat) : List Nat :=
  (List.range (bytes.length / 4)).map fun i =>
    (bytes.getD (4 * i) 0 <<< 24) ||| (bytes.getD (4 * i + 1) 0 <<< 16)
      ||| (bytes.getD (4 * i + 2) 0 <<< 8) ||| bytes.getD (4 * i + 3) 0

/-- Big-endian bytes of a 32-bit word. -/
def wordToBytesBE (w : Nat) : List Nat :=
  [(w >>> 24) &&& 255, (w >>> 16) &&& 255, (w >>> 8) &&& 255, w &&& 255]

/-- Big-endian 8-byte length field of the padding. -/
def lenBytesBE8 (n : Nat) : List Nat :=
  [(n >>> 56) &&& 255, (n >>> 48) &&& 255, (n >>> 40) &&& 255, (n >>> 32) &&& 255,
   (n >>> 24) &&& 255, (n >>> 16) &&& 255, (n >>> 8) &&& 255, n &&& 255]

/-- SHA-256 padding: a 0x80 byte, zeros to 56 mod 64, and the bit length. -/
def shaPad (msg : List Nat) : List Nat :=
  msg ++ [128] ++ List.replicate ((64 - (msg.length + 9) % 64) % 64) 0
    ++ lenBytesBE8 (8 * msg.length)

/-- Message-schedule extension of the 16 chunk words to 64. -/
def shaExtend (w16 : List Nat) : List Nat :=
  (List.range 48).foldl
    (fun w _ =>
      let n := w.length
      w ++ [add32 (add32 (ssig1 (w.getD (n - 2) 0)) (w.getD (n - 7) 0))
            (add32 (ssig0 (w.getD (n - 15) 0)) (w.getD (n - 16) 0))])
    w16

/-- One SHA-256 round with constant `k` and schedule word `w`. -/
def shaRound (st : Hash8) (kw : Nat × Nat) : Hash8 :=
  let t1 := add32 (add32 (add32 st.h (bsig1 st.e)) (add32 (shaCh st.e st.f st.g) kw.1)) kw.2
  let t2 := add32 (bsig0 st.a) (shaMaj st.a st.b st.c)
  ⟨add32 t1 t2, st.a, st.b, st.c, add32 st.d t1, st.e, st.f, st.g⟩

/-- Compression of one 64-byte chunk into the running hash. -/
def shaCompress (hs : Hash8) (chunk : List Nat) : Hash8 :=
  let w := shaExtend (toWordsBE chunk)
  let st := (shaK.zip w).foldl shaRound hs
  ⟨add32 hs.a st.a, add32 hs.b st.b, add32 hs.c st.c, add32 hs.d st.d,
   add32 hs.e st.e, add32 hs.f st.f, add32 hs.g st.g, add32 hs.h st.h⟩

/-- `hashlib.sha256(msg).digest()`: the 32 digest bytes of a byte list. -/
def sha256 (msg : List Nat) : List Nat :=
  let padded := shaPad msg
  let chunks := (List.range (padded.length / 64)).map fun i => (padded.drop (64 * i)).take 64
  let hs := chunks.foldl shaCompress shaH0
  wordToBytesBE hs.a ++ wordToBytesBE hs.b ++ wordToBytesBE hs.c ++ wordToBytesBE hs.d
    ++ wordToBytesBE hs.e ++ wordToBytesBE hs.f ++ wordToBytesBE hs.g ++ wordToBytesBE hs.h

/-- The standard base64 alphabet. -/
def b64Alphabet : List Char :=
  "ABCDEFGHIJKLMNOPQRSTUVWXYZabcdefghijklmnopqrstuvwxyz0123456789+/".data

/-- Character for one 6-bit group. -/
def b64Char (n : Nat) : Char := b64Alphabet.getD n 'A'

/-- Base64 of one group of up to three bytes, with `=` padding. -/
def b64Group : List Nat → List Char
  | [a] => [b64Char (a >>> 2), b64Char ((a &&& 3) <<< 4), '=', '=']
  | [a, b] => [b64Char (a >>> 2), b64Char (((a &&& 3) <<< 4) ||| (b >>> 4)),
               b64Char ((b &&& 15) <<< 2), '=']
  | [a, b, c] => [b64Char (a >>> 2), b64Char (((a &&& 3) <<< 4) ||| (b >>> 4)),
                  b64Char (((b &&& 15) <<< 2) ||| (c >>> 6)), b64Char (c &&& 63)]
  | _ => []

/-- `base64.b64encode(bytes).decode("utf-8")`: standard base64 with
padding. -/
def base64Encode (bytes : List Nat) : String :=
  ⟨((List.range ((bytes.length + 2) / 3)).map fun i =>
      b64Group ((bytes.drop (3 * i)).take 3)).flatten⟩

/-- `compute_auth` of the source: hash password and salt, base64 it, hash
that with the challenge, base64 again. -/
def compute_auth (password challenge salt : String) : String :=
  let secret_hash := sha256 (strUtf8 (password ++ salt))
  let secret_b64 := base64Encode secret_hash
  let auth_hash := sha256 (strUtf8 (secret_b64 ++ challenge))
  base64Encode auth_hash

/-- Modelled from the spec (section 4.1 wording): `secret =
base64(SHA-256(password ++ salt))`; `token = base64(SHA-256(secret ++
challenge))`; both concatenations over UTF-8 byte encodings, no separator
byte. -/
def specAuthToken (password challenge salt : String) : String :=
  let secret : String := base64Encode (sha256 (strUtf8 (password ++ salt)))
  base64Encode (sha256 (strUtf8 (secret ++ challenge)))

/-! ## Orchestration saga (`takemycutplease`)

Each fallible remote call the saga makes draws its outcome from a
`SagaEnv` record.  Calls whose failure the source swallows with no effect
on later control flow or on which requests are issued (`stopClipPre`,
`setCut`, `setCutDur`, `disableClipEnd`, `resetPrevVisible`,
`emergencyBack`, `rstOvFrom`, `restoreDur`, `finallyResetPrevVisible`)
need no outcome in the environment. -/

/-- Arguments of `takemycutplease` (the preload sleep is not listed: its
only observable effect is on the clock reading `tAfterSwitch`). -/
structure SagaArgs where
  itstinks_scene : String
  clip_input : String
  prevscene_scene_source_name : String
  previousscene_clone_input : String
  hide_delay_s : ℤ
  fallback_duration_ms : Int
  force_cut : Bool
deriving DecidableEq, Repr

/-- Outcomes of the remote calls of one saga run, and its clock readings.
`progScene`: reported current scene name of the initial query (`none` when
the request raised or the field was missing — both raise in the source).
`cloneSettings`: the wrapper's `clone` setting (outer `none` = request
raised, inner `none` = field absent or not a string).
`ovFrom`, `ovItstinks`: raw transition-override responses.
`finallyScene`: `cur_name` as read in the `finally` block (`none` when
that query raised or the field was missing — the source then skips the
emergency switch).
`tRestart` and `tAfterSwitch`: `loop.time()` before the restart request
and after the switch to the overlay scene, in milliseconds. -/
structure SagaEnv where
  progScene : Option String
  cloneSettings : Option (Option String)
  ovFrom : Option (Option String × Option Int)
  ovItstinks : Option (Option String × Option Int)
  clrOvFromOk : Bool
  clrOvItstinksOk : Bool
  getTransName : Option (Option String)
  getTransDur : Option (Option Int)
  setCloneTargetOk : Bool
  clipItemId : Option Int
  prevItemId : Option Int
  enablePrevOk : Bool
  enableClipOk : Bool
  restartClipOk : Bool
  goItstinksOk : Bool
  tRestart : ℤ
  tAfterSwitch : ℤ
  holdTicks : List Tick
  goBackOk : Bool
  finallyScene : Option String
  rstOvItstinksOk : Bool
  restoreTransOk : Bool
deriving DecidableEq, Repr

/-- Result of one saga run: `ok` (returned), `error` (an exception
escaped), or `hung` (the watcher never returned within the observed
ticks, so control never came back — the unwind does not run). -/
inductive Outcome where
  | ok
  | error
  | hung
deriving DecidableEq, Repr

/-- `get_scene_transition_override`: an empty or non-string name field
becomes `None`; the duration is passed through. -/
def ov_normalize : Option String × Option Int → Option String × Option Int
  | (some s, d) => (if s = "" then none else some s, d)
  | (none, d) => (none, d)

/-- Python truthiness of an optional string. -/
def strTruthy : Option String → Bool
  | some s => decide (s ≠ "")
  | none => false

/-- `try_force_cut_transition`: save the current transition name and
duration, then best-effort force `Cut` with duration 0; a failure of
either query is caught by the outer handler and yields no snapshot, while
failures of the two set-calls are caught individually and change
nothing. -/
def try_force_cut (env : SagaEnv) : List Req × (Option String × Option Int) :=
  match env.getTransName with
  | none => ([Req.getCurrentSceneTransition "getTrans"], (none, none))
  | some name? =>
    match env.getTransDur with
    | none =>
      ([Req.getCurrentSceneTransition "getTrans",
        Req.getCurrentSceneTransitionDuration "getTransDur"], (none, none))
    | some dur? =>
      ([Req.getCurrentSceneTransition "getTrans",
        Req.getCurrentSceneTransitionDuration "getTransDur",
        Req.setCurrentSceneTransition "Cut" "setCut",
        Req.setCurrentSceneTransitionDuration 0 "setCutDur"], (name?, dur?))

/-- `restore_transition`: nothing to do when the saved name is falsy and
the saved duration is `None`; otherwise restore the name when truthy (a
failure is caught but skips the duration restore, which shares the
handler), then restore the duration when present. -/
def restore_transition (saved : Option String × Option Int) (tOk : Bool) : List Req :=
  if !strTruthy saved.1 && saved.2.isNone then []
  else
    (if strTruthy saved.1 then
       [Req.setCurrentSceneTransition (saved.1.getD "") "restoreTrans"]
     else [])
    ++ (if (!strTruthy saved.1 || tOk) && saved.2.isSome then
          [Req.setCurrentSceneTransitionDuration (saved.2.getD 0) "restoreDur"]
        else [])

/-- The wrapper-scene indirection: when the reported scene is the wrapper
`"PreviousScene"`, read the clone input's settings and adopt the `clone`
field when it is a non-empty string different from the wrapper name; the
query failure and every other case keep the wrapper name.  Returns the
issued requests and the resolved clone target. -/
def clone_resolution (a : SagaArgs) (return_scene : String) (env : SagaEnv) :
    List Req × String :=
  if return_scene = "PreviousScene" then
    match env.cloneSettings with
    | none => ([Req.getInputSettings a.previousscene_clone_input "getCloneSettings"], return_scene)
    | some c? =>
      ([Req.getInputSettings a.previousscene_clone_input "getCloneSettings"],
       match c? with
       | some c => if c ≠ "" ∧ c ≠ "PreviousScene" then c else return_scene
       | none => return_scene)
  else ([], return_scene)

/-- The override snapshot/clear block: snapshot both scene overrides, then
clear both; any failure inside is swallowed and leaves
`overrides_disabled = False` (snapshots taken before the failure are kept,
as in the source, but are then never consumed).  Returns the issued
requests, `saved_from_ov`, `saved_itstinks_ov` and `overrides_disabled`. -/
def override_phase (a : SagaArgs) (return_scene : String) (env : SagaEnv) :
    List Req × (Option String × Option Int) × (Option String × Option Int) × Bool :=
  let q1 := Req.getSceneTransitionOverride return_scene "getOvFrom"
  match env.ovFrom with
  | none => ([q1], (none, none), (none, none), false)
  | some raw1 =>
    let s1 := ov_normalize raw1
    let q2 := Req.getSceneTransitionOverride a.itstinks_scene "getOvItstinks"
    match env.ovItstinks with
    | none => ([q1, q2], s1, (none, none), false)
    | some raw2 =>
      let s2 := ov_normalize raw2
      let q3 := Req.setSceneTransitionOverride return_scene none none "clrOvFrom"
      if env.clrOvFromOk = false then ([q1, q2, q3], s1, s2, false)
      else
        let q4 := Req.setSceneTransitionOverride a.itstinks_scene none none "clrOvItstinks"
        if env.clrOvItstinksOk = false then ([q1, q2, q3, q4], s1, s2, false)
        else ([q1, q2, q3, q4], s1, s2, true)

/-- `effective_hide = max(0.0, hide_delay_s - max(0.0, already_elapsed))`
where `already_elapsed` is the clock time since just before the restart
request. -/
def effectiveHide (hide_delay tRestart tAfterSwitch : ℤ) : ℤ :=
  max 0 (hide_delay - max 0 (tAfterSwitch - tRestart))

/-- The watcher invocation of the saga: end timeout 15 s, hide delay
reduced by the time already spent since the clip restart. -/
def sagaHold (a : SagaArgs) (env : SagaEnv) (prev_id : Int) : WatchResult :=
  hold_until_clip_done_or_fallback a.itstinks_scene a.clip_input prev_id
    (effectiveHide a.hide_delay_s env.tRestart env.tAfterSwitch)
    a.fallback_duration_ms 15000 env.holdTicks

/-- The `try` body of the saga: set the clone target, resolve both item
ids, show both items, stop (best-effort) and restart the clip, switch to
the overlay scene, hold, hide the clip item (best-effort), switch back,
and re-show the background item (best-effort).  Returns the issued
requests, `prev_scene_item_id` as known to the `finally` block, and how
the body exited. -/
def body_phase (a : SagaArgs) (return_scene clone_target : String) (env : SagaEnv) :
    List Req × Option Int × Outcome :=
  let q1 := Req.setInputSettings a.previousscene_clone_input clone_target "setCloneTarget"
  if env.setCloneTargetOk = false then ([q1], none, .error)
  else
    let q2 := Req.getSceneItemId a.itstinks_scene a.clip_input "getClipItemId"
    match env.clipItemId with
    | none => ([q1, q2], none, .error)
    | some clip_id =>
      let q3 := Req.getSceneItemId a.itstinks_scene a.prevscene_scene_source_name "getPrevItemId"
      match env.prevItemId with
      | none => ([q1, q2, q3], none, .error)
      | some prev_id =>
        let q4 := Req.setSceneItemEnabled a.itstinks_scene prev_id true "enablePrevAtStart"
        if env.enablePrevOk = false then ([q1, q2, q3, q4], some prev_id, .error)
        else
          let q5 := Req.setSceneItemEnabled a.itstinks_scene clip_id true "enableClipAtStart"
          if env.enableClipOk = false then ([q1, q2, q3, q4, q5], some prev_id, .error)
          else
            let q6 := Req.triggerMediaInputAction a.clip_input
              "OBS_WEBSOCKET_MEDIA_INPUT_ACTION_STOP" "stopClipPre"
            let q7 := Req.triggerMediaInputAction a.clip_input
              "OBS_WEBSOCKET_MEDIA_INPUT_ACTION_RESTART" "restartClipPre"
            if env.restartClipOk = false then
              ([q1, q2, q3, q4, q5, q6, q7], some prev_id, .error)
            else
              let q8 := Req.setCurrentProgramScene a.itstinks_scene "goItstinks"
              if env.goItstinksOk = false then
                ([q1, q2, q3, q4, q5, q6, q7, q8], some prev_id, .error)
              else
                let w := sagaHold a env prev_id
                match w.retIdx with
                | none => ([q1, q2, q3, q4, q5, q6, q7, q8] ++ w.trace, some prev_id, .hung)
                | some _ =>
                  let q9 := Req.setSceneItemEnabled a.itstinks_scene clip_id false "disableClipEnd"
                  let q10 := Req.setCurrentProgramScene return_scene "goBack"
                  if env.goBackOk = false then
                    ([q1, q2, q3, q4, q5, q6, q7, q8] ++ w.trace ++ [q9, q10],
                     some prev_id, .error)
                  else
                    let q11 := Req.setSceneItemEnabled a.itstinks_scene prev_id true
                      "resetPrevVisible"
                    ([q1, q2, q3, q4, q5, q6, q7, q8] ++ w.trace ++ [q9, q10, q11],
                     some prev_id, .ok)

/-- The `finally` block: query the current scene (a failure leaves
`cur_name = None`); emergency-switch back when it reports the overlay
scene; when overrides were cleared, restore the overlay scene's snapshot
and then — only if that request succeeded, the two sharing one handler —
the original scene's; when force-cut was requested, run
`restore_transition`; when the background item id was resolved, set it
visible.  Each of the four guarded groups has its own handler. -/
def finally_phase (a : SagaArgs) (return_scene : String) (overrides_disabled : Bool)
    (saved_from saved_it saved_trans : Option String × Option Int)
    (prev_id? : Option Int) (env : SagaEnv) : List Req :=
  [Req.getCurrentProgramScene "getProgramSceneFinally"]
  ++ (if env.finallyScene = some a.itstinks_scene then
        [Req.setCurrentProgramScene return_scene "emergencyBack"]
      else [])
  ++ (if overrides_disabled then
        [Req.setSceneTransitionOverride a.itstinks_scene saved_it.1 saved_it.2 "rstOvItstinks"]
        ++ (if env.rstOvItstinksOk then
              [Req.setSceneTransitionOverride return_scene saved_from.1 saved_from.2 "rstOvFrom"]
            else [])
      else [])
  ++ (if a.force_cut then restore_transition saved_trans env.restoreTransOk else [])
  ++ (match prev_id? with
      | some pid => [Req.setSceneItemEnabled a.itstinks_scene pid true "finallyResetPrevVisible"]
      | none => [])

/-- `takemycutplease`: the initial scene query with its two guards, the
wrapper resolution, the override block, the optional force-cut, and the
`try` body followed — except when the body hangs — by the `finally`
block. -/
def takemycutplease (a : SagaArgs) (env : SagaEnv) : List Req × Outcome :=
  let tr0 := [Req.getCurrentProgramScene "getProgramScene"]
  match env.progScene with
  | none => (tr0, .error)
  | some return_scene =>
    if return_scene = "" then (tr0, .error)
    else if return_scene = a.itstinks_scene then (tr0, .ok)
    else
      let rc := clone_resolution a return_scene env
      let ov := override_phase a return_scene env
      let fc := if a.force_cut then try_force_cut env else ([], (none, none))
      let body := body_phase a return_scene rc.2 env
      match body.2.2 with
      | .hung => (tr0 ++ rc.1 ++ ov.1 ++ fc.1 ++ body.1, .hung)
      | .error =>
        (tr0 ++ rc.1 ++ ov.1 ++ fc.1 ++ body.1
          ++ finally_phase a return_scene ov.2.2.2 ov.2.1 ov.2.2.1 fc.2 body.2.1 env,
         .error)
      | .ok =>
        (tr0 ++ rc.1 ++ ov.1 ++ fc.1 ++ body.1
          ++ finally_phase a return_scene ov.2.2.2 ov.2.1 ov.2.2.1 fc.2 body.2.1 env,
         .ok)

/-- Requests of a trace carrying a given call-site request id. -/
def filterReqId (s : String) (l : List Req) : List Req :=
  l.filter fun r => reqIdOf r = s

/-- Concrete saga arguments matching the source's CLI defaults (hide
delay 2.7 s, fallback 7500 ms, force-cut on). -/
def argsA : SagaArgs :=
  ⟨"itstinks", "it_stinks_clip", "PreviousScene", "PrevSceneClone", 2700, 7500, true⟩

/-- A fully successful run from scene "Main": every call succeeds, the
watcher sees one tick past the fallback floor, and the finally-block query
reports "Main". -/
def envSucc : SagaEnv :=
  ⟨some "Main", some (some "Main"), some (some "Fade", some 300), some (none, none),
   true, true, some (some "Fade"), some (some 300), true, some 5, some 7,
   true, true, true, true, 1000, 1050, [⟨7650, none, true⟩], true,
   some "Main", true, true⟩

/-- Same run, except that restoring the overlay scene's transition
override fails in the unwind. -/
def envC2 : SagaEnv :=
  ⟨some "Main", some (some "Main"), some (some "Fade", some 300), some (none, none),
   true, true, some (some "Fade"), some (some 300), true, some 5, some 7,
   true, true, true, true, 1000, 1050, [⟨7650, none, true⟩], true,
   some "Main", false, true⟩

/-- A fully successful run that starts on the wrapper scene
"PreviousScene" whose clone input resolves to "Main". -/
def envC6 : SagaEnv :=
  ⟨some "PreviousScene", some (some "Main"), some (some "Fade", some 300), some (none, none),
   true, true, some (some "Fade"), some (some 300), true, some 5, some 7,
   true, true, true, true, 1000, 1050, [⟨7650, none, true⟩], true,
   some "PreviousScene", true, true⟩

/-- A run whose preload and switch already consumed more than the hide
delay (clock advances 3000 ms across the restart-to-switch window). -/
def envC10 : SagaEnv :=
  ⟨some "Main", some (some "Main"), some (some "Fade", some 300), some (none, none),
   true, true, some (some "Fade"), some (some 300), true, some 5, some 7,
   true, true, true, true, 1000, 4000, [⟨100, none, true⟩, ⟨7650, none, true⟩], true,
   some "Main", true, true⟩

/-- A run rejected by the guard: the initial query reports the overlay
scene itself. -/
def envGuard : SagaEnv :=
  ⟨some "itstinks", some (some "Main"), some (some "Fade", some 300), some (none, none),
   true, true, some (some "Fade"), some (some 300), true, some 5, some 7,
   true, true, true, true, 1000, 1050, [⟨7650, none, true⟩], true,
   some "Main", true, true⟩

end ObsCut

namespace ObsCut

/-! ## Watcher lemmas -/

/-- With the ceiling `max fb et`, the three stacked return checks collapse to the
single test `fb ≤ elapsed`. -/
theorem tickReturns_eq_floor (fb et : ℤ) (ended : Bool) (e : ℤ) :
    tickReturns fb (max fb et) ended e = decide (fb ≤ e) := by
  unfold tickReturns
  by_cases h : fb ≤ e
  · simp [h]
  · have hm : ¬ max fb et ≤ e := by
      intro hc
      exact h (le_trans (le_max_left fb et) hc)
    simp [h, hm]

theorem watchGo_retIdx (scene input : String) (pid : Int) (hd fb et : ℤ) :
    ∀ (ts : List Tick) (i : Nat) (st : WatchState),
      (watchGo scene input pid hd fb (max fb et) i st ts).retIdx
        = (firstFloorIdx fb ts).map (· + i) := by
  intro ts
  induction ts with
  | nil => intro i st; rfl
  | cons t ts ih =>
    intro i st
    rw [watchGo, firstFloorIdx, tickReturns_eq_floor]
    by_cases h : fb ≤ t.elapsed
    · simp [h]
    · rw [decide_eq_false h]
      simp only [Bool.false_eq_true, if_false, if_neg h]
      rw [ih]
      cases firstFloorIdx fb ts with
      | none => rfl
      | some k => simp only [Option.map_some']; congr 1; omega

/-- Once the `hidden` flag is set, no further hide request is ever issued:
the flag never returns to `false`. -/
theorem watchGo_hides_of_hidden (scene input : String) (pid : Int) (hd fb mx : ℤ) :
    ∀ (ts : List Tick) (i : Nat) (sa : Bool),
      (watchGo scene input pid hd fb mx i ⟨true, sa⟩ ts).hides = [] := by
  intro ts
  induction ts with
  | nil => intro i sa; rfl
  | cons t ts ih =>
    intro i sa
    rw [watchGo]
    simp only [Bool.not_true, Bool.false_and, Bool.false_eq_true, if_false, Bool.or_false]
    by_cases hr : (tickReturns fb mx
        ((sa || isActiveState (obsState t.obs)) && (obsState t.obs).isSome
            && !isActiveState (obsState t.obs)
          || cursorNearEnd (obsCursor t.obs) (obsDur t.obs)) t.elapsed) = true
    · simp [hr]
    · simp [hr, ih]

/-- The watcher issues at most one hide request in any run. -/
theorem watchGo_hides_len (scene input : String) (pid : Int) (hd fb mx : ℤ) :
    ∀ (ts : List Tick) (i : Nat) (st : WatchState),
      (watchGo scene input pid hd fb mx i st ts).hides.length ≤ 1 := by
  intro ts
  induction ts with
  | nil => intro i st; simp [watchGo]
  | cons t ts ih =>
    intro i st
    obtain ⟨hid, sa⟩ := st
    cases hid with
    | true => rw [watchGo_hides_of_hidden]; simp
    | false =>
      rw [watchGo]
      simp only [Bool.not_false, Bool.true_and]
      by_cases hh : hd ≤ t.elapsed
      · rw [decide_eq_true hh]
        by_cases hr : (tickReturns fb mx
            ((sa || isActiveState (obsState t.obs)) && (obsState t.obs).isSome
                && !isActiveState (obsState t.obs)
              || cursorNearEnd (obsCursor t.obs) (obsDur t.obs)) t.elapsed) = true
        · simp [hr]
        · simp [hr, watchGo_hides_of_hidden]
      · rw [decide_eq_false hh]
        by_cases hr : (tickReturns fb mx
            ((sa || isActiveState (obsState t.obs)) && (obsState t.obs).isSome
                && !isActiveState (obsState t.obs)
              || cursorNearEnd (obsCursor t.obs) (obsDur t.obs)) t.elapsed) = true
        · simp [hr]
        · simp only [Bool.false_eq_true, if_false, hr, Bool.or_false]
          simpa using ih (i + 1) ⟨false, sa || isActiveState (obsState t.obs)⟩

/-- Starting from an un-hidden state, any issued hide happens at a tick
whose elapsed time has reached the hide delay, and every strictly earlier
tick was below the delay. -/
theorem watchGo_hides_spec (scene input : String) (pid : Int) (hd fb mx : ℤ) :
    ∀ (ts : List Tick) (i : Nat) (sa : Bool),
      ∀ k ∈ (watchGo scene input pid hd fb mx i ⟨false, sa⟩ ts).hides,
        ∃ m t, k = i + m ∧ ts[m]? = some t ∧ hd ≤ t.elapsed ∧
          ∀ m' t', m' < m → ts[m']? = some t' → t'.elapsed < hd := by
  intro ts
  induction ts with
  | nil => intro i sa k hk; simp [watchGo] at hk
  | cons t ts ih =>
    intro i sa k hk
    rw [watchGo] at hk
    simp only [Bool.not_false, Bool.true_and] at hk
    by_cases hh : hd ≤ t.elapsed
    · rw [decide_eq_true hh] at hk
      have hk' : k = i := by
        by_cases hr : (tickReturns fb mx
            ((sa || isActiveState (obsState t.obs)) && (obsState t.obs).isSome
                && !isActiveState (obsState t.obs)
              || cursorNearEnd (obsCursor t.obs) (obsDur t.obs)) t.elapsed) = true
        · simp [hr] at hk; exact hk
        · simp [hr, watchGo_hides_of_hidden] at hk; exact hk
      refine ⟨0, t, by omega, by simp, hh, ?_⟩
      intro m' t' hm'; omega
    · rw [decide_eq_false hh] at hk
      by_cases hr : (tickReturns fb mx
          ((sa || isActiveState (obsState t.obs)) && (obsState t.obs).isSome
              && !isActiveState (obsState t.obs)
            || cursorNearEnd (obsCursor t.obs) (obsDur t.obs)) t.elapsed) = true
      · simp [hr] at hk
      · simp only [Bool.false_eq_true, if_false, hr, Bool.or_false] at hk
        simp only [List.nil_append] at hk
        obtain ⟨m, u, hkm, hget, hle, hbefore⟩ :=
          ih (i + 1) (sa || isActiveState (obsState t.obs)) k hk
        refine ⟨m + 1, u, by omega, by simpa using hget, hle, ?_⟩
        intro m' t' hm' hget'
        cases m' with
        | zero =>
          simp at hget'
          rw [← hget']
          exact lt_of_not_le hh
        | succ j =>
          exact hbefore j t' (by omega) (by simpa using hget')

/-- The watcher's behaviour does not depend on whether its hide request
succeeds: the failure is caught inside the loop and `hidden` is set either
way. -/
theorem watchGo_hideOk_irrelevant (scene input : String) (pid : Int) (hd fb mx : ℤ)
    (f : Tick → Bool) :
    ∀ (ts : List Tick) (i : Nat) (st : WatchState),
      watchGo scene input pid hd fb mx i st
          (ts.map (fun t => ⟨t.elapsed, t.obs, f t⟩)) =
        watchGo scene input pid hd fb mx i st ts := by
  intro ts
  induction ts with
  | nil => intro i st; rfl
  | cons t ts ih =>
    intro i st
    rw [List.map_cons, watchGo, watchGo]
    dsimp only
    rw [ih]

/-- A failed status query behaves exactly as a query returning all-unknown
fields; in particular the loop continues to the next tick identically. -/
theorem watchGo_normObs (scene input : String) (pid : Int) (hd fb mx : ℤ) :
    ∀ (ts : List Tick) (i : Nat) (st : WatchState),
      watchGo scene input pid hd fb mx i st
          (ts.map (fun t => ⟨t.elapsed, some (normObs t.obs), t.hideOk⟩)) =
        watchGo scene input pid hd fb mx i st ts := by
  intro ts
  induction ts with
  | nil => intro i st; rfl
  | cons t ts ih =>
    intro i st
    rw [List.map_cons, watchGo, watchGo]
    dsimp only
    rw [ih]
    cases h : t.obs <;> rfl

/-- C1: for every invocation of the watcher and every sequence of observed
media statuses, the loop returns exactly at the first poll tick whose
elapsed time has reached `fallbackDurationMs/1000 + 0.15` seconds — never
earlier and never later: the `ended_by_obs` signal and the `end_timeout_s`
ceiling do not influence the return tick (the right-hand side depends only
on tick elapsed times and the fallback floor). -/
theorem watcher_returns_at_fallback_floor (scene input : String) (pid : Int)
    (hd : ℤ) (fb : Int) (et : ℤ) (ticks : List Tick) :
    (hold_until_clip_done_or_fallback scene input pid hd fb et ticks).retIdx
      = firstFloorIdx (fallback_floor_ms fb) ticks := by
  unfold hold_until_clip_done_or_fallback
  rw [watchGo_retIdx]
  cases firstFloorIdx (fallback_floor_ms fb) ticks <;> simp

/-- C7: in every execution of the watcher the hide request is issued at
most once; it is issued only at a tick whose elapsed time has reached the
hide delay while every earlier tick was still below it (so the `hidden`
flag transitions false to true at most once and never back); and a failure
of the hide request does not propagate: the run's result is identical for
every assignment of success or failure to hide requests. -/
theorem watcher_hide_at_most_once (scene input : String) (pid : Int) (hd : ℤ)
    (fb : Int) (et : ℤ) (ticks : List Tick) :
    (hold_until_clip_done_or_fallback scene input pid hd fb et ticks).hides.length ≤ 1
    ∧ (∀ k ∈ (hold_until_clip_done_or_fallback scene input pid hd fb et ticks).hides,
        ∃ t, ticks[k]? = some t ∧ hd ≤ t.elapsed ∧
          ∀ j t', j < k → ticks[j]? = some t' → t'.elapsed < hd)
    ∧ (∀ f : Tick → Bool,
        hold_until_clip_done_or_fallback scene input pid hd fb et
            (ticks.map (fun t => ⟨t.elapsed, t.obs, f t⟩)) =
          hold_until_clip_done_or_fallback scene input pid hd fb et ticks) := by
  refine ⟨watchGo_hides_len scene input pid hd _ _ ticks 0 ⟨false, false⟩, ?_, ?_⟩
  · intro k hk
    obtain ⟨m, t, hkm, hget, hle, hbefore⟩ :=
      watchGo_hides_spec scene input pid hd _ _ ticks 0 false k hk
    have hm : m = k := by omega
    subst hm
    exact ⟨t, hget, hle, fun j t' hj hg => hbefore j t' hj hg⟩
  · intro f
    exact watchGo_hideOk_irrelevant scene input pid hd _ _ f ticks 0 ⟨false, false⟩

/-- Witness for C7 at a concrete run: with hide delay 0 and a single tick
at elapsed time 1, the hide fires at tick 0 and the tick satisfies the
stated conditions. -/
theorem watcher_hide_at_most_once_witness :
    ∃ t, ([(⟨1, none, true⟩ : Tick)])[0]? = some t ∧ (0 : ℤ) ≤ t.elapsed ∧
      ∀ j t', j < 0 → ([(⟨1, none, true⟩ : Tick)])[j]? = some t' → t'.elapsed < 0 :=
  (watcher_hide_at_most_once "itstinks" "it_stinks_clip" 7 0 7500 15
    [(⟨1, none, true⟩ : Tick)]).2.1 0 (by decide)

/-- C9: a failure of the media-status query on a poll tick is swallowed:
the tick proceeds exactly as if the query had returned with status, cursor
and duration all unknown, and the polling loop continues identically (it
never aborts because of a query failure). -/
theorem watcher_swallows_query_failures (scene input : String) (pid : Int)
    (hd : ℤ) (fb : Int) (et : ℤ) (ticks : List Tick) :
    hold_until_clip_done_or_fallback scene input pid hd fb et
        (ticks.map (fun t => ⟨t.elapsed, some (normObs t.obs), t.hideOk⟩)) =
      hold_until_clip_done_or_fallback scene input pid hd fb et ticks :=
  watchGo_normObs scene input pid hd _ _ ticks 0 ⟨false, false⟩

/-! ## Correlator lemmas -/

/-- C3: the receive loop resolves a `request` call exactly by the status
of its first matching response (op 7, same correlation id): when the
status `result` field is anything other than `true` the call raises an
error carrying the operation name, the remote code and the remote comment
string (defaulted to empty when absent), and otherwise it returns the
matched payload unchanged. -/
theorem request_raises_on_failed_status (request_type rid : String)
    (msgs : List RMsg) (d : DPayload) (h : firstMatch rid msgs = some d) :
    recv_loop request_type rid msgs =
      if d.requestStatus.result = some true then ReqResult.ok d
      else ReqResult.err request_type d.requestStatus.code
        (d.requestStatus.comment.getD "") := by
  induction msgs with
  | nil => simp [firstMatch] at h
  | cons m ms ih =>
    by_cases h7 : m.op = some 7
    · by_cases hid : m.d.requestId = some rid
      · rw [firstMatch] at h
        rw [if_pos ⟨h7, hid⟩] at h
        obtain rfl : m.d = d := by injection h
        by_cases hres : m.d.requestStatus.result = some true
        · simp [recv_loop, h7, hid, hres]
        · simp [recv_loop, h7, hid, hres]
      · rw [firstMatch] at h
        rw [if_neg (by intro hc; exact hid hc.2)] at h
        simpa [recv_loop, h7, hid] using ih h
    · rw [firstMatch] at h
      rw [if_neg (by intro hc; exact h7 hc.1)] at h
      simpa [recv_loop, h7] using ih h

/-- Witness for C3: a stream with an unrelated event (op 5), a response
for a different id, and then a failing matching response produces the
error carrying code 204 and the comment. -/
theorem request_raises_on_failed_status_witness :
    recv_loop "TriggerMediaInputAction" "restartClipPre-7"
        [⟨some 5, ⟨none, ⟨none, none, none⟩, none⟩⟩,
         ⟨some 7, ⟨some "other-3", ⟨some true, none, none⟩, none⟩⟩,
         ⟨some 7, ⟨some "restartClipPre-7", ⟨some false, some 204, some "no media"⟩,
           some "body"⟩⟩] =
      ReqResult.err "TriggerMediaInputAction" (some 204) "no media" := by
  have h := request_raises_on_failed_status "TriggerMediaInputAction" "restartClipPre-7"
    [⟨some 5, ⟨none, ⟨none, none, none⟩, none⟩⟩,
     ⟨some 7, ⟨some "other-3", ⟨some true, none, none⟩, none⟩⟩,
     ⟨some 7, ⟨some "restartClipPre-7", ⟨some false, some 204, some "no media"⟩,
       some "body"⟩⟩]
    ⟨some "restartClipPre-7", ⟨some false, some 204, some "no media"⟩, some "body"⟩
    (by decide)
  simpa using h

/-- Appending to a digit list multiplies the value by ten. -/
theorem decVal_append (xs : List Nat) (d : Nat) :
    decVal (xs ++ [d]) = 10 * decVal xs + d := by
  simp [decVal, List.foldl_append]

/-- Reading the decimal digits back yields the number. -/
theorem decVal_natDigits : ∀ n : Nat, decVal (natDigits n) = n := by
  intro n
  induction n using Nat.strong_induction_on with
  | _ n ih =>
    match n with
    | 0 => simp [natDigits, decVal]
    | n + 1 =>
      rw [natDigits, decVal_append, ih ((n + 1) / 10) (Nat.div_lt_self (Nat.succ_pos n) (by omega))]
      omega

/-- Decimal digits are below ten. -/
theorem natDigits_lt_ten : ∀ n d, d ∈ natDigits n → d < 10 := by
  intro n
  induction n using Nat.strong_induction_on with
  | _ n ih =>
    match n with
    | 0 => intro d hd; simp [natDigits] at hd
    | n + 1 =>
      intro d hd
      rw [natDigits] at hd
      rcases List.mem_append.mp hd with h | h
      · exact ih ((n + 1) / 10) (Nat.div_lt_self (Nat.succ_pos n) (by omega)) d h
      · simp at h; omega

/-- A digit character is a digit and decodes back to its value. -/
theorem digitChar_spec (d : Nat) (h : d < 10) :
    (digitChar d).isDigit = true ∧ charVal (digitChar d) = d := by
  interval_cases d <;> exact ⟨by decide, by decide⟩

/-- `takeWhile` passes over a block that satisfies the predicate. -/
theorem takeWhile_append_all {α : Type} (p : α → Bool) :
    ∀ (l₁ l₂ : List α), (∀ a ∈ l₁, p a = true) →
      (l₁ ++ l₂).takeWhile p = l₁ ++ l₂.takeWhile p := by
  intro l₁
  induction l₁ with
  | nil => intro l₂ h; simp
  | cons a l ih =>
    intro l₂ h
    rw [List.cons_append, List.takeWhile_cons, h a (by simp), ih l₂ (fun b hb => h b (by simp [hb]))]
    simp

/-- The trailing-digit decoder recovers the counter from a generated id,
whatever the prefix was. -/
theorem decodeSeq_mk_request_id (seq : Nat) (pfx : String) :
    decodeSeq (mk_request_id seq pfx).1 = seq + 1 := by
  unfold mk_request_id decodeSeq
  set p := if pfx ≠ "" ∧ pfx ≠ "1" then pfx else "req" with hp
  have hdata : (p ++ "-" ++ natToDecString (seq + 1)).data
      = p.data ++ ['-'] ++ (natDigits (seq + 1)).map digitChar := by
    rw [String.data_append, String.data_append]
    rfl
  have hdash : (List.reverse ['-'] ++ p.data.reverse).takeWhile (fun c => c.isDigit) = [] := by
    simp [List.takeWhile_cons]
  rw [hdata]
  have hdig : ∀ c ∈ ((natDigits (seq + 1)).map digitChar).reverse, c.isDigit = true := by
    intro c hc
    rw [List.mem_reverse] at hc
    obtain ⟨d, hd, rfl⟩ := List.mem_map.mp hc
    exact (digitChar_spec d (natDigits_lt_ten _ d hd)).1
  rw [List.reverse_append, List.reverse_append, takeWhile_append_all _ _ _ hdig,
    hdash, List.append_nil, List.reverse_reverse, List.map_map]
  have hmap : ((natDigits (seq + 1)).map (charVal ∘ digitChar)) = natDigits (seq + 1) := by
    apply List.map_congr_left ?_ |>.trans (List.map_id _)
    intro d hd
    exact (digitChar_spec d (natDigits_lt_ten _ d hd)).2
  rw [hmap, decVal_natDigits]

/-- Every id generated later in a run decodes to a counter value strictly
above the starting counter. -/
theorem gen_ids_decode_gt : ∀ (ps : List String) (seq : Nat),
    ∀ id ∈ gen_ids seq ps, seq < decodeSeq id := by
  intro ps
  induction ps with
  | nil => intro seq id hid; simp [gen_ids] at hid
  | cons p ps ih =>
    intro seq id hid
    rw [gen_ids] at hid
    rcases List.mem_cons.mp hid with h | h
    · rw [h, decodeSeq_mk_request_id]; omega
    · have htail := ih (mk_request_id seq p).2 id h
      have h2 : (mk_request_id seq p).2 = seq + 1 := rfl
      rw [h2] at htail
      omega

/-- Ids generated from any starting counter are pairwise distinct. -/
theorem gen_ids_nodup : ∀ (ps : List String) (seq : Nat), (gen_ids seq ps).Nodup := by
  intro ps
  induction ps with
  | nil => intro seq; simp [gen_ids]
  | cons p ps ih =>
    intro seq
    rw [gen_ids]
    refine List.nodup_cons.mpr ⟨?_, ih (mk_request_id seq p).2⟩
    intro hmem
    have hgt := gen_ids_decode_gt ps (mk_request_id seq p).2 _ hmem
    have h2 : (mk_request_id seq p).2 = seq + 1 := rfl
    rw [h2, decodeSeq_mk_request_id] at hgt
    omega

/-- C5: over any sequence of `request` calls on one client the generated
correlation ids are pairwise distinct; each generation bumps the internal
counter by exactly one (so it strictly increases), and the produced id is
the chosen prefix (the caller's unless falsy or the default "1", in which
case "req") followed by "-" and the decimal counter value. -/
theorem correlation_ids_unique (ps : List String) (seq : Nat) (pfx : String) :
    (gen_ids 0 ps).Nodup
    ∧ (mk_request_id seq pfx).2 = seq + 1
    ∧ (mk_request_id seq pfx).1
        = (if pfx ≠ "" ∧ pfx ≠ "1" then pfx else "req") ++ "-" ++ natToDecString (seq + 1) :=
  ⟨gen_ids_nodup ps 0, rfl, rfl⟩

/-! ## Authentication lemmas -/

set_option maxRecDepth 10000 in
/-- Sanity check of the hash embedding against the published SHA-256 test
vector for the empty message, through base64. -/
theorem sha256_empty_vector :
    base64Encode (sha256 []) = "47DEQpj8HBSa+/TImW+5JCeuQeRkm5NMpJWZG3hSuFU=" := by
  decide

set_option maxRecDepth 10000 in
/-- Sanity check against the SHA-256 test vector for "abc". -/
theorem sha256_abc_vector :
    base64Encode (sha256 (strUtf8 "abc")) = "ungWv48Bz+pBQUDeXa4iI7ADYaOWF3qctBD/YfIAFa0=" := by
  decide

/-- C4: `compute_auth` is a (deterministic) function of the three strings
and coincides, for every triple, with the two-stage construction written
in the specification: `secret = base64(SHA-256(password ++ salt))`,
`token = base64(SHA-256(secret ++ challenge))`, concatenation over UTF-8
bytes with no separator. -/
theorem compute_auth_matches_spec (password challenge salt : String) :
    compute_auth password challenge salt = specAuthToken password challenge salt := rfl

/-! ## Saga lemmas -/

/-- Every request of a watcher trace is the hide call or the status
query. -/
theorem watchGo_trace_shape (scene input : String) (pid : Int) (hd fb mx : ℤ) :
    ∀ (ts : List Tick) (i : Nat) (st : WatchState),
      ∀ r ∈ (watchGo scene input pid hd fb mx i st ts).trace,
        r = Req.setSceneItemEnabled scene pid false "hidePrev"
        ∨ r = Req.getMediaInputStatus input "getMedia" := by
  intro ts
  induction ts with
  | nil => intro i st r hr; simp [watchGo] at hr
  | cons t ts ih =>
    intro i st r hr
    rw [watchGo] at hr
    dsimp only at hr
    split at hr <;> simp at hr
    · rcases hr with ⟨_, rfl⟩ | rfl
      · exact Or.inl rfl
      · exact Or.inr rfl
    · rcases hr with ⟨_, rfl⟩ | rfl | hr
      · exact Or.inl rfl
      · exact Or.inr rfl
      · exact ih (i + 1) _ r hr

/-- The wrapper resolution issues only the clone-settings query. -/
theorem clone_resolution_reqIds (a : SagaArgs) (rs : String) (env : SagaEnv) :
    ∀ r ∈ (clone_resolution a rs env).1, reqIdOf r = "getCloneSettings" := by
  intro r hr
  unfold clone_resolution at hr
  repeat' split at hr
  all_goals simp at hr
  all_goals subst hr
  all_goals rfl

/-- The override block issues only its four snapshot/clear requests. -/
theorem override_phase_reqIds (a : SagaArgs) (rs : String) (env : SagaEnv) :
    ∀ r ∈ (override_phase a rs env).1,
      reqIdOf r = "getOvFrom" ∨ reqIdOf r = "getOvItstinks"
      ∨ reqIdOf r = "clrOvFrom" ∨ reqIdOf r = "clrOvItstinks" := by
  intro r hr
  unfold override_phase at hr
  repeat' split at hr
  all_goals simp at hr
  all_goals
    first
    | (subst hr; simp [reqIdOf])
    | (rcases hr with rfl | rfl <;> simp [reqIdOf])
    | (rcases hr with rfl | rfl | rfl <;> simp [reqIdOf])
    | (rcases hr with rfl | rfl | rfl | rfl <;> simp [reqIdOf])

/-- The force-cut block issues only its four requests. -/
theorem try_force_cut_reqIds (env : SagaEnv) :
    ∀ r ∈ (try_force_cut env).1,
      reqIdOf r = "getTrans" ∨ reqIdOf r = "getTransDur"
      ∨ reqIdOf r = "setCut" ∨ reqIdOf r = "setCutDur" := by
  intro r hr
  unfold try_force_cut at hr
  repeat' split at hr
  all_goals simp at hr
  all_goals
    first
    | (subst hr; simp [reqIdOf])
    | (rcases hr with rfl | rfl <;> simp [reqIdOf])
    | (rcases hr with rfl | rfl | rfl | rfl <;> simp [reqIdOf])

/-- The transition restore issues only its two requests. -/
theorem restore_transition_reqIds (saved : Option String × Option Int) (tOk : Bool) :
    ∀ r ∈ restore_transition saved tOk,
      reqIdOf r = "restoreTrans" ∨ reqIdOf r = "restoreDur" := by
  intro r hr
  unfold restore_transition at hr
  split at hr
  · simp at hr
  · rw [List.mem_append] at hr
    rcases hr with hr | hr
    · split at hr <;> simp at hr
      subst hr; left; rfl
    · split at hr <;> simp at hr
      subst hr; right; rfl

/-- In the unwind, the only switch request with id "emergencyBack"
targets the original scene; every other unwind request has one of the
block\'s own ids. -/
theorem finally_phase_reqIds (a : SagaArgs) (rs : String) (ovd : Bool)
    (sf si stv : Option String × Option Int) (pid? : Option Int) (env : SagaEnv) :
    ∀ r ∈ finally_phase a rs ovd sf si stv pid? env,
      reqIdOf r = "getProgramSceneFinally"
      ∨ r = Req.setCurrentProgramScene rs "emergencyBack"
      ∨ reqIdOf r = "rstOvItstinks" ∨ reqIdOf r = "rstOvFrom"
      ∨ reqIdOf r = "restoreTrans" ∨ reqIdOf r = "restoreDur"
      ∨ reqIdOf r = "finallyResetPrevVisible" := by
  intro r hr
  unfold finally_phase at hr
  rw [List.append_assoc, List.append_assoc, List.append_assoc] at hr
  rw [List.mem_append, List.mem_append, List.mem_append, List.mem_append] at hr
  rcases hr with hr | hr | hr | hr | hr
  · simp at hr; subst hr; left; rfl
  · split at hr <;> simp at hr
    subst hr; right; left; rfl
  · split at hr
    · rw [List.mem_append] at hr
      rcases hr with hr | hr
      · simp at hr; subst hr
        right; right; left; rfl
      · split at hr <;> simp at hr
        subst hr; right; right; right; left; rfl
    · simp at hr
  · split at hr
    · rcases restore_transition_reqIds stv env.restoreTransOk r hr with h | h
      · right; right; right; right; left; exact h
      · right; right; right; right; right; left; exact h
    · simp at hr
  · split at hr <;> simp at hr
    subst hr; right; right; right; right; right; right; rfl

/-- Trace decomposition of a run that passes the guard: the pre-body
phases, the body, and — whenever the body did not hang — the unwind. -/
theorem takemycutplease_trace (a : SagaArgs) (env : SagaEnv) (rs : String)
    (h1 : env.progScene = some rs) (h2 : rs ≠ "") (h3 : rs ≠ a.itstinks_scene) :
    (takemycutplease a env).1
      = [Req.getCurrentProgramScene "getProgramScene"]
        ++ (clone_resolution a rs env).1 ++ (override_phase a rs env).1
        ++ (if a.force_cut then try_force_cut env else ([], (none, none))).1
        ++ (body_phase a rs (clone_resolution a rs env).2 env).1
        ++ (if (body_phase a rs (clone_resolution a rs env).2 env).2.2 = Outcome.hung
            then []
            else finally_phase a rs (override_phase a rs env).2.2.2
              (override_phase a rs env).2.1 (override_phase a rs env).2.2.1
              (if a.force_cut then try_force_cut env else ([], (none, none))).2
              (body_phase a rs (clone_resolution a rs env).2 env).2.1 env) := by
  unfold takemycutplease
  rw [h1]
  dsimp only
  rw [if_neg h2, if_neg h3]
  cases hb : (body_phase a rs (clone_resolution a rs env).2 env).2.2 <;>
    simp [hb, List.append_assoc]

/-- The requests of the saga's watcher segment are the hide call and the
status query. -/
theorem sagaHold_trace_shape (a : SagaArgs) (env : SagaEnv) (pi : Int) :
    ∀ r ∈ (sagaHold a env pi).trace,
      r = Req.setSceneItemEnabled a.itstinks_scene pi false "hidePrev"
      ∨ r = Req.getMediaInputStatus a.clip_input "getMedia" :=
  watchGo_trace_shape _ _ _ _ _ _ env.holdTicks 0 ⟨false, false⟩

/-- The clone-target request opens every body trace. -/
theorem body_phase_head (a : SagaArgs) (rs ct : String) (env : SagaEnv) :
    Req.setInputSettings a.previousscene_clone_input ct "setCloneTarget"
      ∈ (body_phase a rs ct env).1 := by
  unfold body_phase
  repeat' split
  all_goals try simp
  all_goals split <;> simp

/-- The only body request with id "goBack" is the switch back to the
original scene. -/
theorem body_phase_goBack (a : SagaArgs) (rs ct : String) (env : SagaEnv) :
    ∀ r ∈ (body_phase a rs ct env).1, reqIdOf r = "goBack" →
      r = Req.setCurrentProgramScene rs "goBack" := by
  intro r hr hid
  unfold body_phase at hr
  repeat' split at hr
  all_goals try (dsimp only at hr)
  all_goals repeat' split at hr
  all_goals simp only [List.mem_append, List.mem_cons, List.mem_singleton,
    List.not_mem_nil, or_false, false_or] at hr
  all_goals
    repeat
      first
      | rfl
      | (subst hr; first | rfl | simp [reqIdOf] at hid)
      | (rcases sagaHold_trace_shape a env _ r hr with rfl | rfl <;>
          simp [reqIdOf] at hid)
      | (rcases hr with hr | hr)
      | simp [reqIdOf] at hid

/-- No body request carries the id "emergencyBack". -/
theorem body_phase_no_emergency (a : SagaArgs) (rs ct : String) (env : SagaEnv) :
    ∀ r ∈ (body_phase a rs ct env).1, reqIdOf r ≠ "emergencyBack" := by
  intro r hr hid
  unfold body_phase at hr
  repeat' split at hr
  all_goals try (dsimp only at hr)
  all_goals repeat' split at hr
  all_goals simp only [List.mem_append, List.mem_cons, List.mem_singleton,
    List.not_mem_nil, or_false, false_or] at hr
  all_goals
    repeat
      first
      | (subst hr; simp [reqIdOf] at hid)
      | (rcases sagaHold_trace_shape a env _ r hr with rfl | rfl <;>
          simp [reqIdOf] at hid)
      | (rcases hr with hr | hr)
      | simp [reqIdOf] at hid

/-- A successful run up to the scene switch always reaches the watcher:
the body trace contains its whole request segment. -/
theorem body_phase_watch_segment (a : SagaArgs) (rs ct : String) (env : SagaEnv) (pi : Int)
    (h5 : env.setCloneTargetOk = true) (h6 : env.clipItemId.isSome = true)
    (h7 : env.prevItemId = some pi) (h8 : env.enablePrevOk = true)
    (h9 : env.enableClipOk = true) (h10 : env.restartClipOk = true)
    (h11 : env.goItstinksOk = true) :
    ∃ pre post, (body_phase a rs ct env).1 = pre ++ (sagaHold a env pi).trace ++ post := by
  obtain ⟨ci, hci⟩ := Option.isSome_iff_exists.mp h6
  unfold body_phase
  rw [h5, hci, h7]
  simp only [h8, h9, h10, h11, Bool.true_eq_false, if_false]
  cases hw : (sagaHold a env pi).retIdx with
  | none =>
    exact ⟨[Req.setInputSettings a.previousscene_clone_input ct "setCloneTarget",
      Req.getSceneItemId a.itstinks_scene a.clip_input "getClipItemId",
      Req.getSceneItemId a.itstinks_scene a.prevscene_scene_source_name "getPrevItemId",
      Req.setSceneItemEnabled a.itstinks_scene pi true "enablePrevAtStart",
      Req.setSceneItemEnabled a.itstinks_scene ci true "enableClipAtStart",
      Req.triggerMediaInputAction a.clip_input "OBS_WEBSOCKET_MEDIA_INPUT_ACTION_STOP" "stopClipPre",
      Req.triggerMediaInputAction a.clip_input
        "OBS_WEBSOCKET_MEDIA_INPUT_ACTION_RESTART" "restartClipPre",
      Req.setCurrentProgramScene a.itstinks_scene "goItstinks"], [], by simp⟩
  | some k =>
    cases hgb : env.goBackOk with
    | false =>
      exact ⟨[Req.setInputSettings a.previousscene_clone_input ct "setCloneTarget",
        Req.getSceneItemId a.itstinks_scene a.clip_input "getClipItemId",
        Req.getSceneItemId a.itstinks_scene a.prevscene_scene_source_name "getPrevItemId",
        Req.setSceneItemEnabled a.itstinks_scene pi true "enablePrevAtStart",
        Req.setSceneItemEnabled a.itstinks_scene ci true "enableClipAtStart",
        Req.triggerMediaInputAction a.clip_input "OBS_WEBSOCKET_MEDIA_INPUT_ACTION_STOP" "stopClipPre",
        Req.triggerMediaInputAction a.clip_input
          "OBS_WEBSOCKET_MEDIA_INPUT_ACTION_RESTART" "restartClipPre",
        Req.setCurrentProgramScene a.itstinks_scene "goItstinks"],
        [Req.setSceneItemEnabled a.itstinks_scene ci false "disableClipEnd",
         Req.setCurrentProgramScene rs "goBack"], by simp⟩
    | true =>
      exact ⟨[Req.setInputSettings a.previousscene_clone_input ct "setCloneTarget",
        Req.getSceneItemId a.itstinks_scene a.clip_input "getClipItemId",
        Req.getSceneItemId a.itstinks_scene a.prevscene_scene_source_name "getPrevItemId",
        Req.setSceneItemEnabled a.itstinks_scene pi true "enablePrevAtStart",
        Req.setSceneItemEnabled a.itstinks_scene ci true "enableClipAtStart",
        Req.triggerMediaInputAction a.clip_input "OBS_WEBSOCKET_MEDIA_INPUT_ACTION_STOP" "stopClipPre",
        Req.triggerMediaInputAction a.clip_input
          "OBS_WEBSOCKET_MEDIA_INPUT_ACTION_RESTART" "restartClipPre",
        Req.setCurrentProgramScene a.itstinks_scene "goItstinks"],
        [Req.setSceneItemEnabled a.itstinks_scene ci false "disableClipEnd",
         Req.setCurrentProgramScene rs "goBack",
         Req.setSceneItemEnabled a.itstinks_scene pi true "resetPrevVisible"], by simp⟩

/-- When the effective hide delay is already reached at the first tick,
the hide request fires there. -/
theorem watchGo_first_tick_hide (scene input : String) (pid : Int) (hd fb mx : ℤ)
    (t : Tick) (ts : List Tick) (h0 : hd ≤ t.elapsed) :
    0 ∈ (watchGo scene input pid hd fb mx 0 ⟨false, false⟩ (t :: ts)).hides := by
  rw [watchGo]
  simp only [Bool.not_false, Bool.true_and, decide_eq_true h0]
  split <;> simp

/-- C8: when the initial scene query reports the overlay scene itself,
the saga returns without error having issued only that single read: in
particular no override clear, no transition change, no clone-target set,
no visibility toggle, no media action and no scene switch is sent. -/
theorem guard_refuses_without_mutation (a : SagaArgs) (env : SagaEnv)
    (h1 : env.progScene = some a.itstinks_scene) (h2 : a.itstinks_scene ≠ "") :
    (takemycutplease a env).2 = Outcome.ok
    ∧ (takemycutplease a env).1 = [Req.getCurrentProgramScene "getProgramScene"]
    ∧ ∀ r ∈ (takemycutplease a env).1, isMutating r = false := by
  have htr : takemycutplease a env
      = ([Req.getCurrentProgramScene "getProgramScene"], Outcome.ok) := by
    unfold takemycutplease
    rw [h1]
    dsimp only
    rw [if_neg h2, if_pos rfl]
  rw [htr]
  refine ⟨rfl, rfl, ?_⟩
  intro r hr
  rw [List.mem_singleton] at hr
  subst hr
  rfl

/-- Witness for C8 on a concrete run already sitting on "itstinks". -/
theorem guard_refuses_without_mutation_witness :
    (takemycutplease argsA envGuard).2 = Outcome.ok
    ∧ (takemycutplease argsA envGuard).1 = [Req.getCurrentProgramScene "getProgramScene"]
    ∧ ∀ r ∈ (takemycutplease argsA envGuard).1, isMutating r = false :=
  guard_refuses_without_mutation argsA envGuard (by decide) (by decide)

/-- Counterexample for C2 as stated: a run whose overrides were cleared
and whose unwind restore of the overlay scene's override fails; the
original scene's snapshot restore is then never attempted, because the
two restores share a single best-effort handler — so the unwind does not
restore both snapshots, and a failure in one restoration does prevent
another from being attempted. -/
theorem unwind_override_pair_not_independent :
    (override_phase argsA "Main" envC2).2.2.2 = true
    ∧ filterReqId "rstOvItstinks" (takemycutplease argsA envC2).1
        = [Req.setSceneTransitionOverride "itstinks" none none "rstOvItstinks"]
    ∧ filterReqId "rstOvFrom" (takemycutplease argsA envC2).1 = [] := by
  decide

/-- C2 (amended): every run that passes the initial guard and whose
watcher returns executes the unwind — the saga trace is the guarded read,
the pre-body phases and the body, followed by the `finally` requests —
and for every snapshot state the `finally` block (i) issues the emergency
switch to the original scene whenever its own scene query reports the
overlay scene, (ii) when the overrides were cleared, always attempts the
overlay scene's override restore, immediately followed by the original
scene's exactly when that first restore succeeds (the pair shares one
best-effort handler), (iii) when force-cut was requested, restores a
truthy saved transition name, and a present saved duration unless a
preceding name-restore failed, and (iv) when the background item id was
resolved, re-enables it; the four groups are guarded independently of one
another. -/
theorem unwind_always_runs_and_restores (a : SagaArgs) (env : SagaEnv) (rs : String)
    (h1 : env.progScene = some rs) (h2 : rs ≠ "") (h3 : rs ≠ a.itstinks_scene)
    (h4 : (body_phase a rs (clone_resolution a rs env).2 env).2.2 ≠ Outcome.hung)
    (ovd : Bool) (sf si stv : Option String × Option Int) (pid? : Option Int) :
    ((takemycutplease a env).1
      = [Req.getCurrentProgramScene "getProgramScene"]
        ++ (clone_resolution a rs env).1 ++ (override_phase a rs env).1
        ++ (if a.force_cut then try_force_cut env else ([], (none, none))).1
        ++ (body_phase a rs (clone_resolution a rs env).2 env).1
        ++ finally_phase a rs (override_phase a rs env).2.2.2
            (override_phase a rs env).2.1 (override_phase a rs env).2.2.1
            (if a.force_cut then try_force_cut env else ([], (none, none))).2
            (body_phase a rs (clone_resolution a rs env).2 env).2.1 env)
    ∧ (env.finallyScene = some a.itstinks_scene →
        Req.setCurrentProgramScene rs "emergencyBack"
          ∈ finally_phase a rs ovd sf si stv pid? env)
    ∧ (ovd = true →
        ∃ l₁ l₂, finally_phase a rs ovd sf si stv pid? env
          = l₁ ++ [Req.setSceneTransitionOverride a.itstinks_scene si.1 si.2 "rstOvItstinks"]
            ++ (if env.rstOvItstinksOk then
                  [Req.setSceneTransitionOverride rs sf.1 sf.2 "rstOvFrom"]
                else []) ++ l₂)
    ∧ (a.force_cut = true → strTruthy stv.1 = true →
        Req.setCurrentSceneTransition (stv.1.getD "") "restoreTrans"
          ∈ finally_phase a rs ovd sf si stv pid? env)
    ∧ (a.force_cut = true → (!strTruthy stv.1 || env.restoreTransOk) = true →
        ∀ d, stv.2 = some d →
          Req.setCurrentSceneTransitionDuration d "restoreDur"
            ∈ finally_phase a rs ovd sf si stv pid? env)
    ∧ (∀ pid, pid? = some pid →
        Req.setSceneItemEnabled a.itstinks_scene pid true "finallyResetPrevVisible"
          ∈ finally_phase a rs ovd sf si stv pid? env) := by
  refine ⟨?_, ?_, ?_, ?_, ?_, ?_⟩
  · rw [takemycutplease_trace a env rs h1 h2 h3, if_neg h4]
  · intro hf
    simp [finally_phase, hf]
  · intro hovd
    refine ⟨[Req.getCurrentProgramScene "getProgramSceneFinally"]
      ++ (if env.finallyScene = some a.itstinks_scene then
            [Req.setCurrentProgramScene rs "emergencyBack"] else []),
      (if a.force_cut then restore_transition stv env.restoreTransOk else [])
      ++ (match pid? with
          | some pid =>
            [Req.setSceneItemEnabled a.itstinks_scene pid true "finallyResetPrevVisible"]
          | none => []), ?_⟩
    simp [finally_phase, hovd, List.append_assoc]
  · intro hfc hname
    unfold finally_phase
    refine List.mem_append.mpr (Or.inl (List.mem_append.mpr (Or.inr ?_)))
    rw [hfc]
    simp only [if_true]
    unfold restore_transition
    simp [hname]
  · intro hfc hok d hd
    unfold finally_phase
    refine List.mem_append.mpr (Or.inl (List.mem_append.mpr (Or.inr ?_)))
    rw [hfc]
    simp only [if_true]
    unfold restore_transition
    rw [hd]
    simp [hok]
  · intro pid hpid
    simp [finally_phase, hpid]

/-- Witness for C2 (amended) on a fully successful concrete run: the
background item's visibility restore is attempted in the unwind. -/
theorem unwind_always_runs_and_restores_witness :
    Req.setSceneItemEnabled "itstinks" 7 true "finallyResetPrevVisible"
      ∈ finally_phase argsA "Main" true (some "Fade", some 300) (none, none)
          (some "Fade", some 300) (some 7) envSucc :=
  (unwind_always_runs_and_restores argsA envSucc "Main" (by decide) (by decide)
      (by decide) (by decide) true (some "Fade", some 300) (none, none)
      (some "Fade", some 300) (some 7)).2.2.2.2.2 7 rfl

/-- Counterexample for C6 as stated: a run on the wrapper scene whose
clone target resolves to "Main" clones into "Main" but switches back to
"PreviousScene" — the resolved name is not the scene the saga returns
to. -/
theorem wrapper_return_not_resolved_target :
    filterReqId "setCloneTarget" (takemycutplease argsA envC6).1
      = [Req.setInputSettings "PrevSceneClone" "Main" "setCloneTarget"]
    ∧ filterReqId "goBack" (takemycutplease argsA envC6).1
      = [Req.setCurrentProgramScene "PreviousScene" "goBack"]
    ∧ ("Main" : String) ≠ "PreviousScene" := by
  decide

/-- C6 (amended): when the initial query reports the wrapper scene
"PreviousScene", the saga resolves the clone target from the clone
input's settings — keeping the wrapper name when the query fails, the
field is absent or not a string, empty, or the wrapper name again — and
uses the resolved name as the scene to clone into; but the scene it
switches back to at the end (and in the emergency return) remains the
wrapper name itself, not the resolved target. -/
theorem wrapper_resolution_targets (a : SagaArgs) (env : SagaEnv)
    (h1 : env.progScene = some "PreviousScene")
    (h3 : a.itstinks_scene ≠ "PreviousScene") :
    ((clone_resolution a "PreviousScene" env).2
      = match env.cloneSettings with
        | some (some c) => if c ≠ "" ∧ c ≠ "PreviousScene" then c else "PreviousScene"
        | _ => "PreviousScene")
    ∧ Req.setInputSettings a.previousscene_clone_input
        (clone_resolution a "PreviousScene" env).2 "setCloneTarget"
        ∈ (takemycutplease a env).1
    ∧ (∀ r ∈ (takemycutplease a env).1, reqIdOf r = "goBack" →
        r = Req.setCurrentProgramScene "PreviousScene" "goBack")
    ∧ (∀ r ∈ (takemycutplease a env).1, reqIdOf r = "emergencyBack" →
        r = Req.setCurrentProgramScene "PreviousScene" "emergencyBack") := by
  have h3' : ("PreviousScene" : String) ≠ a.itstinks_scene := fun h => h3 h.symm
  have htr := takemycutplease_trace a env "PreviousScene" h1 (by decide) h3'
  rw [List.append_assoc, List.append_assoc, List.append_assoc, List.append_assoc] at htr
  refine ⟨?_, ?_, ?_, ?_⟩
  · unfold clone_resolution
    rw [if_pos rfl]
    cases env.cloneSettings with
    | none => rfl
    | some c => cases c <;> rfl
  · rw [htr]
    simp only [List.mem_append]
    right; right; right; right; left
    exact body_phase_head a "PreviousScene" _ env
  · intro r hr hid
    rw [htr] at hr
    simp only [List.mem_append, List.mem_singleton] at hr
    rcases hr with rfl | hr | hr | hr | hr | hr
    · exact absurd hid (by decide)
    · rw [clone_resolution_reqIds a "PreviousScene" env r hr] at hid
      exact absurd hid (by decide)
    · rcases override_phase_reqIds a "PreviousScene" env r hr with h | h | h | h <;>
        rw [h] at hid <;> exact absurd hid (by decide)
    · rcases hfc : a.force_cut with _ | _
      · rw [hfc] at hr; simp at hr
      · rw [hfc] at hr
        rcases try_force_cut_reqIds env r hr with h | h | h | h <;>
          rw [h] at hid <;> exact absurd hid (by decide)
    · exact body_phase_goBack a "PreviousScene" _ env r hr hid
    · split at hr
      · simp at hr
      · rcases finally_phase_reqIds a "PreviousScene" _ _ _ _ _ env r hr with
          h | h | h | h | h | h | h
        · rw [h] at hid; exact absurd hid (by decide)
        · subst h; exact absurd hid (by decide)
        all_goals rw [h] at hid; exact absurd hid (by decide)
  · intro r hr hid
    rw [htr] at hr
    simp only [List.mem_append, List.mem_singleton] at hr
    rcases hr with rfl | hr | hr | hr | hr | hr
    · exact absurd hid (by decide)
    · rw [clone_resolution_reqIds a "PreviousScene" env r hr] at hid
      exact absurd hid (by decide)
    · rcases override_phase_reqIds a "PreviousScene" env r hr with h | h | h | h <;>
        rw [h] at hid <;> exact absurd hid (by decide)
    · rcases hfc : a.force_cut with _ | _
      · rw [hfc] at hr; simp at hr
      · rw [hfc] at hr
        rcases try_force_cut_reqIds env r hr with h | h | h | h <;>
          rw [h] at hid <;> exact absurd hid (by decide)
    · exact absurd hid (body_phase_no_emergency a "PreviousScene" _ env r hr)
    · split at hr
      · simp at hr
      · rcases finally_phase_reqIds a "PreviousScene" _ _ _ _ _ env r hr with
          h | h | h | h | h | h | h
        · rw [h] at hid; exact absurd hid (by decide)
        · exact h
        all_goals rw [h] at hid; exact absurd hid (by decide)

/-- Witness for C6 (amended) on a concrete wrapper-scene run: the clone
target resolved from the clone input's settings is what the saga clones
into. -/
theorem wrapper_resolution_targets_witness :
    Req.setInputSettings "PrevSceneClone"
        (clone_resolution argsA "PreviousScene" envC6).2 "setCloneTarget"
      ∈ (takemycutplease argsA envC6).1 :=
  (wrapper_resolution_targets argsA envC6 (by decide) (by decide)).2.1

/-- C10: the hide delay the saga hands to the watcher is not the
configured delay but the configured delay minus the clock time already
spent since just before the clip-restart request, clamped below at zero
— so the hide is timed relative to the clip restart, not the scene
switch; in particular, when the preload sleep and the switch already
consumed the whole delay, the effective delay is zero and the hide fires
on the watcher's very first tick. -/
theorem effective_hide_compensates_preload (a : SagaArgs) (env : SagaEnv) (rs : String)
    (pi : Int)
    (h1 : env.progScene = some rs) (h2 : rs ≠ "") (h3 : rs ≠ a.itstinks_scene)
    (h5 : env.setCloneTargetOk = true) (h6 : env.clipItemId.isSome = true)
    (h7 : env.prevItemId = some pi) (h8 : env.enablePrevOk = true)
    (h9 : env.enableClipOk = true) (h10 : env.restartClipOk = true)
    (h11 : env.goItstinksOk = true) :
    (∃ pre post, (takemycutplease a env).1 = pre ++ (sagaHold a env pi).trace ++ post)
    ∧ effectiveHide a.hide_delay_s env.tRestart env.tAfterSwitch
        = max 0 (a.hide_delay_s - max 0 (env.tAfterSwitch - env.tRestart))
    ∧ (a.hide_delay_s ≤ env.tAfterSwitch - env.tRestart →
        ∀ t ts, env.holdTicks = t :: ts → 0 ≤ t.elapsed →
          0 ∈ (sagaHold a env pi).hides) := by
  refine ⟨?_, rfl, ?_⟩
  · obtain ⟨pre, post, hbody⟩ :=
      body_phase_watch_segment a rs (clone_resolution a rs env).2 env pi
        h5 h6 h7 h8 h9 h10 h11
    rw [takemycutplease_trace a env rs h1 h2 h3, hbody]
    refine ⟨[Req.getCurrentProgramScene "getProgramScene"]
      ++ (clone_resolution a rs env).1 ++ (override_phase a rs env).1
      ++ (if a.force_cut then try_force_cut env else ([], (none, none))).1 ++ pre,
      post
      ++ (if (body_phase a rs (clone_resolution a rs env).2 env).2.2 = Outcome.hung
          then []
          else finally_phase a rs (override_phase a rs env).2.2.2
            (override_phase a rs env).2.1 (override_phase a rs env).2.2.1
            (if a.force_cut then try_force_cut env else ([], (none, none))).2
            (body_phase a rs (clone_resolution a rs env).2 env).2.1 env), ?_⟩
    simp [List.append_assoc]
  · intro hcons t ts hticks h0
    have heff : effectiveHide a.hide_delay_s env.tRestart env.tAfterSwitch = 0 := by
      unfold effectiveHide
      rcases le_total 0 (env.tAfterSwitch - env.tRestart) with h | h
      · rw [max_eq_right h]
        exact max_eq_left (by omega)
      · rw [max_eq_left h]
        exact max_eq_left (by omega)
    unfold sagaHold hold_until_clip_done_or_fallback
    rw [heff, hticks]
    exact watchGo_first_tick_hide _ _ _ _ _ _ t ts h0

/-- Witness for C10 on a concrete run where restart-to-switch took
3000 ms against a 2700 ms hide delay: the hide fires at the watcher's
first tick. -/
theorem effective_hide_compensates_preload_witness :
    0 ∈ (sagaHold argsA envC10 7).hides :=
  (effective_hide_compensates_preload argsA envC10 "Main" 7 (by decide) (by decide)
      (by decide) (by decide) (by decide) (by decide) (by decide) (by decide)
      (by decide) (by decide)).2.2 (by decide)
    ⟨100, none, true⟩ [⟨7650, none, true⟩] rfl (by decide)

end ObsCut
